import Mathlib

/-!
Verification of the MSviewer repository's data-normalization and
visual-encoding pipeline: a shallow embedding of `MSView.py`
(`MSPlot.load_csv`, `MSPlot.create_plot`), `WellView.py`
(`WellPlot.load_csv`, `WellPlot.create_plot`) and `VisualizeModel.py`
(`DataViewer.draw`), together with theorems settling the specification
claims about them.

Modelling conventions:
- pandas timestamps are milliseconds since the epoch, as `Int`;
  `pd.to_datetime` on a `MM/DD/YYYY HH:MM:ss` string is embedded as a
  proleptic-Gregorian day count times 86,400,000 plus the time of day in
  milliseconds (whole-second resolution, exactly as a parsed
  `HH:MM:ss` string has);
- real-valued columns (coordinates, magnitudes) are `Rat`;
- a pandas `Series.min()` / `Series.max()` is an `Option`-valued fold
  (`none` on an empty series, where pandas yields `NaN`/`NaT`);
- fallible library calls are `Option`-valued.
-/

namespace MSV

/-! ### Temporal normalizer (`MSView.py`, `load_csv` lines 217-222) -/

/-- A calendar date as parsed from an `MM/DD/YYYY` string. -/
structure CalDate where
  month : Nat
  day : Nat
  year : Int
  deriving DecidableEq

/-- A time of day as parsed from an `HH:MM:ss` string. -/
structure TimeOfDay where
  hour : Nat
  minute : Nat
  second : Nat
  deriving DecidableEq

/-- Days since 1970-01-01 of a proleptic-Gregorian calendar date
(the civil-from-days algorithm used by datetime libraries). -/
def daysFromCivil (d : CalDate) : Int :=
  let y : Int := if d.month ≤ 2 then d.year - 1 else d.year
  let era : Int := (if 0 ≤ y then y else y - 399) / 400
  let yoe : Int := y - era * 400
  let mp : Int := ((d.month : Int) + 9) % 12
  let doy : Int := (153 * mp + 2) / 5 + (d.day : Int) - 1
  let doe : Int := yoe * 365 + yoe / 4 - yoe / 100 + doy
  era * 146097 + doe - 719468

/-- `pd.to_datetime` applied to the concatenated date and time strings:
a whole-second timestamp, in milliseconds since the epoch. -/
def toDatetime (d : CalDate) (t : TimeOfDay) : Int :=
  (daysFromCivil d * 86400 + ((t.hour * 3600 + t.minute * 60 + t.second : Nat) : Int)) * 1000

/-! ### Event records (`MSView.py`, `MSPlot.load_csv`) -/

/-- One data row of the event-catalog CSV after pandas type coercion:
the nine required columns with their declared dtypes, the date and
time-of-day columns already split into their parsed components. -/
structure RawEventRow where
  fileName : String
  easting : Rat
  northing : Rat
  depthTVDSS : Rat
  origin_date : CalDate
  origin_time : TimeOfDay
  origin_ms : Int
  bruneMagnitude : Rat
  stage : Int
  deriving DecidableEq

/-- A loaded event record: the canonical (renamed) columns produced by
`MSPlot.load_csv`, with the derived combined `Origin DateTime` column. -/
structure EventRecord where
  fileName : String
  easting : Rat
  northing : Rat
  depthTVDSS : Rat
  origin_date : CalDate
  origin_time : TimeOfDay
  originDateTime : Int
  bruneMagnitude : Rat
  stage : Int
  deriving DecidableEq

/-- The per-row work of `MSPlot.load_csv`: rename the columns and derive
`Origin DateTime = to_datetime(date + ' ' + time) + to_timedelta(ms, unit='ms')`
(lines 219 and 222 of `MSView.py`). -/
def parseEventRow (row : RawEventRow) : EventRecord :=
  { fileName := row.fileName
    easting := row.easting
    northing := row.northing
    depthTVDSS := row.depthTVDSS
    origin_date := row.origin_date
    origin_time := row.origin_time
    originDateTime := toDatetime row.origin_date row.origin_time + row.origin_ms
    bruneMagnitude := row.bruneMagnitude
    stage := row.stage }

/-- The numeric attributes of an event record that `color_by` / `size_by`
may name (the numeric canonical columns of the loaded table). -/
inductive Attr where
  | easting
  | northing
  | depthTVDSS
  | bruneMagnitude
  | stage
  deriving DecidableEq

/-- The canonical column name of an attribute. -/
def Attr.colName : Attr → String
  | .easting => "Easting (ft)"
  | .northing => "Northing (ft)"
  | .depthTVDSS => "Depth TVDSS (ft)"
  | .bruneMagnitude => "Brune Magnitude"
  | .stage => "Stage"

/-- Column access `df[attr]` on one record. -/
def getAttr (r : EventRecord) : Attr → Rat
  | .easting => r.easting
  | .northing => r.northing
  | .depthTVDSS => r.depthTVDSS
  | .bruneMagnitude => r.bruneMagnitude
  | .stage => (r.stage : Rat)

/-- The `MSPlot` instance state: the configuration attributes set in
`__init__` plus the loaded table `self.data`. -/
structure MSPlot where
  color_by : Attr
  color_scale : String
  size_by : Attr
  size_range : List Int
  plot_start_time : Option Int
  plot_end_time : Option Int
  title : String
  data : List EventRecord
  deriving DecidableEq

/-- `MSPlot.__init__`: the default configuration (no data loaded yet). -/
def MSPlot.init : MSPlot :=
  { color_by := .stage
    color_scale := "Viridis"
    size_by := .bruneMagnitude
    size_range := [10, 100]
    plot_start_time := none
    plot_end_time := none
    title := "3D Bubble Chart of Cumulative Seismic Entries"
    data := [] }

/-- `MSPlot.load_csv`: parse every data row and store the result in
`self.data` (the file-existence check and pandas parsing of the raw text
are outside the embedding; rows arrive type-coerced). -/
def MSPlot.load_csv (s : MSPlot) (rows : List RawEventRow) : MSPlot :=
  { s with data := rows.map parseEventRow }

/-! ### `MSPlot.create_plot` pipeline (`MSView.py` lines 262-306) -/

/-- `Series.min()`: fold the binary minimum over the series, `none`
(pandas `NaN`/`NaT`) on an empty series. -/
def seriesMin {α : Type} [LinearOrder α] : List α → Option α
  | [] => none
  | x :: xs => some (xs.foldl min x)

/-- `Series.max()`: fold the binary maximum over the series, `none`
(pandas `NaN`/`NaT`) on an empty series. -/
def seriesMax {α : Type} [LinearOrder α] : List α → Option α
  | [] => none
  | x :: xs => some (xs.foldl max x)

/-- Insert a record into a list already ascending by `Origin DateTime`. -/
def insertByDT (r : EventRecord) : List EventRecord → List EventRecord
  | [] => [r]
  | x :: xs =>
      if r.originDateTime ≤ x.originDateTime then r :: x :: xs
      else x :: insertByDT r xs

/-- `df.sort_values(by='Origin DateTime')`: sort ascending by the
combined timestamp (insertion sort; pandas guarantees only the ordering,
which any comparison sort realizes). -/
def sortValuesByDT (l : List EventRecord) : List EventRecord :=
  l.foldr insertByDT []

/-- The boolean-mask filter of line 280:
`df_100[(df_100['Origin DateTime'] >= start) & (df_100['Origin DateTime'] <= end)]`. -/
def windowFilter (l : List EventRecord) (lo hi : Int) : List EventRecord :=
  l.filter fun r => decide (lo ≤ r.originDateTime) && decide (r.originDateTime ≤ hi)

/-- Line 265 then 268: `df_100 = data.iloc[:101]` (first 101 rows, for
development) followed by the chronological sort. -/
def MSPlot.df100sorted (s : MSPlot) : List EventRecord :=
  sortValuesByDT (s.data.take 101)

/-- Lines 273-274: the start bound actually used (and stored): the
supplied `plot_start_time` if set, otherwise the minimum timestamp of
the capped subset. -/
def MSPlot.resolvedStart (s : MSPlot) : Option Int :=
  match s.plot_start_time with
  | some t => some t
  | none => seriesMin (s.df100sorted.map (·.originDateTime))

/-- Lines 276-277: the end bound actually used (and stored): the
supplied `plot_end_time` if set, otherwise the maximum timestamp of the
capped subset. -/
def MSPlot.resolvedEnd (s : MSPlot) : Option Int :=
  match s.plot_end_time with
  | some t => some t
  | none => seriesMax (s.df100sorted.map (·.originDateTime))

/-- Line 280 applied to the resolved bounds: `df_filtered`. Both bounds
are `none` only when the capped subset is empty (pandas `NaT` bounds), in
which case every `>= NaT` comparison is false and the filter is empty. -/
def MSPlot.filteredData (s : MSPlot) : List EventRecord :=
  match s.resolvedStart, s.resolvedEnd with
  | some lo, some hi => windowFilter s.df100sorted lo hi
  | _, _ => []

/-- Python's built-in `abs` on a rational value (phrased on the
numerator so that it evaluates by kernel reduction). -/
def ratAbs (q : Rat) : Rat := if q.num < 0 then -q else q

/-- Render a rational to two decimal places as Python's `f"{x:.2f}"`
does (round to the nearest hundredth). -/
def fmt2 (q : Rat) : String :=
  let n : Int := round (q * 100)
  let sign := if n < 0 then "-" else ""
  let a := n.natAbs
  sign ++ toString (a / 100) ++ "."
    ++ (if a % 100 < 10 then "0" else "") ++ toString (a % 100)

/-- The hover text of line 292:
`f"File: {name}<br>Stage: {stage}<br>Magnitude: {mag:.2f}"`. -/
def hoverText (r : EventRecord) : String :=
  "File: " ++ r.fileName ++ "<br>Stage: " ++ toString r.stage
    ++ "<br>Magnitude: " ++ fmt2 r.bruneMagnitude

/-- The `marker=dict(...)` keyword block of lines 294-303. -/
structure Marker where
  sizemode : String
  sizeref : Nat
  size : List Rat
  color : List Rat
  colorscale : String
  cmin : Option Rat
  cmax : Option Rat
  colorbarTitle : String
  deriving DecidableEq

/-- The `go.Scatter3d` point cloud built for the event data. -/
structure Scatter3dMS where
  x : List Rat
  y : List Rat
  z : List Rat
  text : List String
  mode : String
  marker : Marker
  deriving DecidableEq

/-- `MSPlot.create_plot`: cap to the first 101 rows, sort by timestamp,
store the resolved default bounds on the instance, filter to the window,
and build the `go.Scatter3d` with size `abs(column) * 100` and color the
raw column with `cmin`/`cmax` the filtered column's min/max. Returns the
plot together with the mutated instance. -/
def MSPlot.create_plot (s : MSPlot) : Scatter3dMS × MSPlot :=
  let dfF := s.filteredData
  let colors := dfF.map fun r => getAttr r s.color_by
  (⟨dfF.map (·.easting),
    dfF.map (·.northing),
    dfF.map (·.depthTVDSS),
    dfF.map hoverText,
    "markers",
    { sizemode := "diameter"
      sizeref := 25
      size := dfF.map fun r => ratAbs (getAttr r s.size_by) * 100
      color := colors
      colorscale := s.color_scale
      cmin := seriesMin colors
      cmax := seriesMax colors
      colorbarTitle := s.color_by.colName }⟩,
   { s with plot_start_time := s.resolvedStart, plot_end_time := s.resolvedEnd })

/-! ### Well trajectories (`WellView.py`) -/

/-- One station of a wellbore survey: the four columns kept by
`WellPlot.load_csv`. -/
structure Station where
  azimuth : Rat
  tvd : Rat
  ns : Rat
  ew : Rat
  deriving DecidableEq

/-- A parsed well-survey table, in source file order. -/
abbrev WellTable := List Station

/-- The keyword arguments of one `pd.read_csv` call in
`WellPlot.load_csv` (`skipfooter` defaults to 0 when not passed). -/
structure ReadCsvConfig where
  skiprows : Nat
  skipfooter : Nat
  usecols : List String
  names : Option (List String)
  encoding : String
  deriving DecidableEq

/-- The call for `self.well1` (`WellView.py` line 25):
`skiprows=27, skipfooter=5, usecols=['Azimuth','TVD','NS','EW']`. -/
def well1_read_config : ReadCsvConfig :=
  { skiprows := 27
    skipfooter := 5
    usecols := ["Azimuth", "TVD", "NS", "EW"]
    names := none
    encoding := "ISO-8859-1" }

/-- The call for `self.well2` (lines 26-27): `skiprows=22` with the four
column names supplied explicitly. -/
def well2_read_config : ReadCsvConfig :=
  { skiprows := 22
    skipfooter := 0
    usecols := ["Azimuth", "TVD", "NS", "EW"]
    names := some ["Azimuth", "TVD", "NS", "EW"]
    encoding := "ISO-8859-1" }

/-- The call for `self.well3` (lines 28-29), identical in shape to the
`well2` call. -/
def well3_read_config : ReadCsvConfig :=
  { skiprows := 22
    skipfooter := 0
    usecols := ["Azimuth", "TVD", "NS", "EW"]
    names := some ["Azimuth", "TVD", "NS", "EW"]
    encoding := "ISO-8859-1" }

/-- The call for `self.well4` (lines 30-31), identical in shape to the
`well2` call. -/
def well4_read_config : ReadCsvConfig :=
  { skiprows := 22
    skipfooter := 0
    usecols := ["Azimuth", "TVD", "NS", "EW"]
    names := some ["Azimuth", "TVD", "NS", "EW"]
    encoding := "ISO-8859-1" }

/-- Transcribed from the claim's wording, for comparison only (not from
the source): a variant-A configuration that skips 1 header-describing
row and 5 trailing footer rows, columns selected by name. -/
def specWellA_read_config : ReadCsvConfig :=
  { skiprows := 1
    skipfooter := 5
    usecols := ["Azimuth", "TVD", "NS", "EW"]
    names := none
    encoding := "ISO-8859-1" }

/-- The rows of a file that `pd.read_csv` parses as data under a given
configuration: drop the `skiprows` leading rows, then one header row
when no explicit `names` are supplied, and drop the `skipfooter`
trailing rows. -/
def dataRows {α : Type} (cfg : ReadCsvConfig) (file : List α) : List α :=
  let afterSkip := file.drop cfg.skiprows
  let afterHeader := if cfg.names.isSome then afterSkip else afterSkip.drop 1
  afterHeader.take (afterHeader.length - cfg.skipfooter)

/-- One `wellN` attribute of a `WellPlot` instance: the constructor file
path before `load_csv` runs, the parsed table afterwards. -/
inductive WellSlot where
  | path (p : String)
  | table (t : WellTable)
  deriving DecidableEq

/-- The `WellPlot` instance state: the four `wellN` attributes set in
`__init__` from the four constructor arguments. -/
structure WellPlot where
  well1 : WellSlot
  well2 : WellSlot
  well3 : WellSlot
  well4 : WellSlot
  deriving DecidableEq

/-- `pd.read_csv(arg, **cfg)`: parses the file when `arg` is still a
path (the ambient filesystem `fs` interprets a path under a
configuration); pandas raises when handed an already-parsed DataFrame,
modelled as `none`. -/
def pd_read_csv (fs : String → ReadCsvConfig → WellTable) (cfg : ReadCsvConfig) :
    WellSlot → Option WellTable
  | .path p => some (fs p cfg)
  | .table _ => none

/-- `WellPlot.load_csv`: read each of the four stored attributes as a
CSV under its hardcoded configuration and overwrite the attribute with
the parsed table. -/
def WellPlot.load_csv (fs : String → ReadCsvConfig → WellTable) (s : WellPlot) :
    Option WellPlot := do
  let t1 ← pd_read_csv fs well1_read_config s.well1
  let t2 ← pd_read_csv fs well2_read_config s.well2
  let t3 ← pd_read_csv fs well3_read_config s.well3
  let t4 ← pd_read_csv fs well4_read_config s.well4
  pure ⟨.table t1, .table t2, .table t3, .table t4⟩

/-- The `line=dict(color=..., width=3)` block of `WellPlot.create_plot`. -/
structure LineStyle where
  color : String
  width : Nat
  deriving DecidableEq

/-- The `go.Scatter3d` polyline built for one well. -/
structure Scatter3dWell where
  x : List Rat
  y : List Rat
  z : List Rat
  mode : String
  line : LineStyle
  name : String
  deriving DecidableEq

/-- The fixed palette `colors = ['red', 'blue', 'green', 'orange']`. -/
def wellColors : List String := ["red", "blue", "green", "orange"]

/-- The loop body of `WellPlot.create_plot` for index `i`: positions
from the `EW`, `NS`, `TVD` columns, color `colors[i % len(colors)]`,
width 3, label `f'{i+1}H'`. -/
def wellTrace (i : Nat) (df : WellTable) : Scatter3dWell :=
  { x := df.map (·.ew)
    y := df.map (·.ns)
    z := df.map (·.tvd)
    mode := "lines"
    line := { color := wellColors.getD (i % wellColors.length) "", width := 3 }
    name := toString (i + 1) ++ "H" }

/-- Extract the parsed table from a slot (`none` when `load_csv` has not
replaced the path yet, where the Python code would fail on indexing a
string). -/
def WellSlot.asTable : WellSlot → Option WellTable
  | .table t => some t
  | .path _ => none

/-- `WellPlot.create_plot`: enumerate the four stored tables and build
one polyline per well. -/
def WellPlot.create_plot (s : WellPlot) : Option (List Scatter3dWell) := do
  let w1 ← s.well1.asTable
  let w2 ← s.well2.asTable
  let w3 ← s.well3.asTable
  let w4 ← s.well4.asTable
  pure (([w1, w2, w3, w4].enum).map fun p => wellTrace p.1 p.2)

/-! ### Scene composition (`VisualizeModel.py`, `DataViewer.draw`) -/

/-- A drawable `go.Scatter3d` trace: an event point cloud or a well
polyline. -/
inductive Trace where
  | ms (p : Scatter3dMS)
  | well (p : Scatter3dWell)
  deriving DecidableEq

/-- A Python value handed to the viewer: a `go.Scatter3d`, or any other
value carried with its printed representation. -/
inductive PyObj where
  | scatter3d (t : Trace)
  | invalid (s : String)
  deriving DecidableEq

/-- One element of the `plot_objects` list: a single value, or a
one-level nested list of values. -/
inductive PlotEntry where
  | obj (o : PyObj)
  | group (l : List PyObj)
  deriving DecidableEq

/-- The shared branch body of `DataViewer.draw`: `fig.add_trace` when
the value is a `go.Scatter3d`, otherwise
`print(f"Invalid object: ...")`. The accumulator is the figure's trace
list together with the printed diagnostics. -/
def addLeaf (acc : List Trace × List String) : PyObj → List Trace × List String
  | .scatter3d t => (acc.1 ++ [t], acc.2)
  | .invalid s => (acc.1, acc.2 ++ ["Invalid object: " ++ s])

/-- `DataViewer.draw`: iterate over `plot_objects`, descending one level
into list entries, adding every `go.Scatter3d` as a trace and printing a
diagnostic for every other value. Returns the figure's traces with the
diagnostics. -/
def DataViewer.draw (plot_objects : List PlotEntry) : List Trace × List String :=
  plot_objects.foldl
    (fun acc b =>
      match b with
      | .group l => l.foldl addLeaf acc
      | .obj o => addLeaf acc o)
    ([], [])

/-- The leaves of one `plot_objects` entry, in encounter order. -/
def entryLeaves : PlotEntry → List PyObj
  | .obj o => [o]
  | .group l => l

/-- The drawable carried by a valid leaf. -/
def validOf : PyObj → Option Trace
  | .scatter3d t => some t
  | .invalid _ => none

/-- The diagnostic emitted for an invalid leaf. -/
def diagOf : PyObj → Option String
  | .invalid s => some ("Invalid object: " ++ s)
  | .scatter3d _ => none

/-! ### Concrete example catalogs (used by example conjuncts and witnesses) -/

/-- A raw catalog row with fixed coordinates, varying magnitude, stage
and second-of-day. -/
def exRow (name : String) (mag : Rat) (stg : Int) (sec : Nat) : RawEventRow :=
  { fileName := name
    easting := 1
    northing := 2
    depthTVDSS := 3
    origin_date := ⟨1, 1, 2025⟩
    origin_time := ⟨0, 0, sec⟩
    origin_ms := 0
    bruneMagnitude := mag
    stage := stg }

/-- The spec's three-row example catalog: magnitudes `[-1.2, -0.5, -2.0]`,
stages `[1, 1, 2]`. -/
def exCatalog : List RawEventRow :=
  [exRow "evt1" (mkRat (-12) 10) 1 1, exRow "evt2" (mkRat (-1) 2) 1 2,
   exRow "evt3" (-2) 2 3]

/-- A default-configured `MSPlot` loaded with the three-row example. -/
def exPlot3 : MSPlot := MSPlot.init.load_csv exCatalog

/-- A two-row catalog whose color attribute (`Stage`) is constant. -/
def exCatalogConst : List RawEventRow :=
  [exRow "a" (-1) 7 1, exRow "b" (-2) 7 2]

/-- A default-configured `MSPlot` loaded with the constant-stage example. -/
def exPlotConst : MSPlot := MSPlot.init.load_csv exCatalogConst

end MSV

namespace MSV

/-! ### Helper lemmas on series folds -/

theorem foldl_min_spec {α : Type} [LinearOrder α] (xs : List α) (x : α) :
    (xs.foldl min x = x ∨ xs.foldl min x ∈ xs)
    ∧ xs.foldl min x ≤ x ∧ ∀ y ∈ xs, xs.foldl min x ≤ y := by
  induction xs generalizing x with
  | nil => simp
  | cons a xs ih =>
    simp only [List.foldl_cons]
    obtain ⟨hmem, hle, hall⟩ := ih (min x a)
    refine ⟨?_, ?_, ?_⟩
    · rcases hmem with h | h
      · rcases min_choice x a with hx | ha
        · exact Or.inl (by rw [h, hx])
        · exact Or.inr (by rw [h, ha]; exact List.mem_cons_self a xs)
      · exact Or.inr (List.mem_cons_of_mem _ h)
    · exact le_trans hle (min_le_left x a)
    · intro y hy
      rcases List.mem_cons.mp hy with rfl | hy
      · exact le_trans hle (min_le_right x y)
      · exact hall y hy

theorem foldl_max_spec {α : Type} [LinearOrder α] (xs : List α) (x : α) :
    (xs.foldl max x = x ∨ xs.foldl max x ∈ xs)
    ∧ x ≤ xs.foldl max x ∧ ∀ y ∈ xs, y ≤ xs.foldl max x := by
  induction xs generalizing x with
  | nil => simp
  | cons a xs ih =>
    simp only [List.foldl_cons]
    obtain ⟨hmem, hle, hall⟩ := ih (max x a)
    refine ⟨?_, ?_, ?_⟩
    · rcases hmem with h | h
      · rcases max_choice x a with hx | ha
        · exact Or.inl (by rw [h, hx])
        · exact Or.inr (by rw [h, ha]; exact List.mem_cons_self a xs)
      · exact Or.inr (List.mem_cons_of_mem _ h)
    · exact le_trans (le_max_left x a) hle
    · intro y hy
      rcases List.mem_cons.mp hy with rfl | hy
      · exact le_trans (le_max_right x y) hle
      · exact hall y hy

theorem seriesMin_spec {α : Type} [LinearOrder α] (l : List α) (m : α)
    (h : seriesMin l = some m) : m ∈ l ∧ ∀ y ∈ l, m ≤ y := by
  match l with
  | [] => simp [seriesMin] at h
  | x :: xs =>
    simp only [seriesMin, Option.some.injEq] at h
    obtain ⟨hmem, hle, hall⟩ := foldl_min_spec xs x
    subst h
    refine ⟨?_, ?_⟩
    · rcases hmem with h | h
      · rw [h]; exact List.mem_cons_self x xs
      · exact List.mem_cons_of_mem _ h
    · intro y hy
      rcases List.mem_cons.mp hy with rfl | hy
      · exact hle
      · exact hall y hy

theorem seriesMax_spec {α : Type} [LinearOrder α] (l : List α) (m : α)
    (h : seriesMax l = some m) : m ∈ l ∧ ∀ y ∈ l, y ≤ m := by
  match l with
  | [] => simp [seriesMax] at h
  | x :: xs =>
    simp only [seriesMax, Option.some.injEq] at h
    obtain ⟨hmem, hle, hall⟩ := foldl_max_spec xs x
    subst h
    refine ⟨?_, ?_⟩
    · rcases hmem with h | h
      · rw [h]; exact List.mem_cons_self x xs
      · exact List.mem_cons_of_mem _ h
    · intro y hy
      rcases List.mem_cons.mp hy with rfl | hy
      · exact hle
      · exact hall y hy

theorem seriesMin_const {α : Type} [LinearOrder α] (l : List α) (c : α)
    (hne : l ≠ []) (hc : ∀ y ∈ l, y = c) : seriesMin l = some c := by
  match l with
  | [] => exact absurd rfl hne
  | x :: xs =>
    obtain ⟨hmem, _, _⟩ := foldl_min_spec xs x
    simp only [seriesMin, Option.some.injEq]
    rcases hmem with h | h
    · rw [h]; exact hc x (List.mem_cons_self x xs)
    · exact hc _ (List.mem_cons_of_mem _ h)

theorem seriesMax_const {α : Type} [LinearOrder α] (l : List α) (c : α)
    (hne : l ≠ []) (hc : ∀ y ∈ l, y = c) : seriesMax l = some c := by
  match l with
  | [] => exact absurd rfl hne
  | x :: xs =>
    obtain ⟨hmem, _, _⟩ := foldl_max_spec xs x
    simp only [seriesMax, Option.some.injEq]
    rcases hmem with h | h
    · rw [h]; exact hc x (List.mem_cons_self x xs)
    · exact hc _ (List.mem_cons_of_mem _ h)

/-! ### Claim theorems: temporal normalizer -/

/-- C1: for every loaded event record, the derived `Origin DateTime`
equals the datetime parsed from the record's date and time-of-day strings
plus its integer millisecond offset added as a millisecond timedelta, and
the millisecond component is preserved exactly: the loaded timestamp is
congruent to the offset modulo one second. -/
theorem load_csv_origin_datetime (s : MSPlot) (rows : List RawEventRow) :
    (s.load_csv rows).data = rows.map parseEventRow
    ∧ (∀ row : RawEventRow,
        (parseEventRow row).originDateTime
          = toDatetime row.origin_date row.origin_time + row.origin_ms)
    ∧ (∀ row : RawEventRow,
        (parseEventRow row).originDateTime % 1000 = row.origin_ms % 1000) := by
  refine ⟨rfl, fun row => rfl, fun row => ?_⟩
  show (toDatetime row.origin_date row.origin_time + row.origin_ms) % 1000
      = row.origin_ms % 1000
  unfold toDatetime
  omega

/-! ### Claim theorems: encoding mapper -/

/-- C2: the marker size of each record in the created plot is the
absolute value of the configured size attribute times the fixed scale
100, and on the spec's three-row catalog with magnitudes
`[-1.2, -0.5, -2.0]` the computed sizes are `[120, 50, 200]`. -/
theorem create_plot_marker_size (s : MSPlot) :
    (s.create_plot).1.marker.size
        = s.filteredData.map (fun r => |getAttr r s.size_by| * 100)
    ∧ (exPlot3.create_plot).1.marker.size = [120, 50, 200] := by
  have habs : ∀ q : Rat, ratAbs q = |q| := by
    intro q
    rw [ratAbs]
    rcases lt_or_le q.num 0 with h | h
    · have hq : q < 0 := by
        by_contra hq
        have := Rat.num_nonneg.mpr (not_lt.mp hq)
        omega
      rw [if_pos h, abs_of_neg hq]
    · rw [if_neg (by omega), abs_of_nonneg (Rat.num_nonneg.mp h)]
  constructor
  · show (MSPlot.filteredData s).map (fun r => ratAbs (getAttr r s.size_by) * 100)
        = s.filteredData.map (fun r => |getAttr r s.size_by| * 100)
    simp only [habs]
  · with_unfolding_all decide

/-- C3: the marker colors of the created plot are the raw values of the
configured color attribute over the filtered record set; `cmin`/`cmax`
are the minimum/maximum of that attribute over the filtered set (they
are members of and bound the filtered values); and when every filtered
value of the color attribute equals some `c`, the encoding is still
produced with `cmin = cmax = c` and every record colored `c`. -/
theorem create_plot_marker_color (s : MSPlot) :
    (s.create_plot).1.marker.color
        = s.filteredData.map (fun r => getAttr r s.color_by)
    ∧ (s.create_plot).1.marker.cmin
        = seriesMin (s.filteredData.map fun r => getAttr r s.color_by)
    ∧ (s.create_plot).1.marker.cmax
        = seriesMax (s.filteredData.map fun r => getAttr r s.color_by)
    ∧ (∀ m, (s.create_plot).1.marker.cmin = some m →
        m ∈ (s.filteredData.map fun r => getAttr r s.color_by)
        ∧ ∀ c ∈ s.filteredData.map fun r => getAttr r s.color_by, m ≤ c)
    ∧ (∀ m, (s.create_plot).1.marker.cmax = some m →
        m ∈ (s.filteredData.map fun r => getAttr r s.color_by)
        ∧ ∀ c ∈ s.filteredData.map fun r => getAttr r s.color_by, c ≤ m)
    ∧ (∀ c, s.filteredData ≠ [] →
        (∀ r ∈ s.filteredData, getAttr r s.color_by = c) →
        (s.create_plot).1.marker.cmin = some c
        ∧ (s.create_plot).1.marker.cmax = some c
        ∧ ∀ v ∈ (s.create_plot).1.marker.color, v = c) := by
  refine ⟨rfl, rfl, rfl, fun m h => seriesMin_spec _ m h,
    fun m h => seriesMax_spec _ m h, fun c hne hc => ?_⟩
  have hmapne : (s.filteredData.map fun r => getAttr r s.color_by) ≠ [] := by
    simpa using hne
  have hmapc : ∀ v ∈ s.filteredData.map fun r => getAttr r s.color_by, v = c := by
    intro v hv
    obtain ⟨r, hr, rfl⟩ := List.mem_map.mp hv
    exact hc r hr
  exact ⟨seriesMin_const _ c hmapne hmapc, seriesMax_const _ c hmapne hmapc, hmapc⟩

/-- Witness for C3: on the constant-stage two-row catalog the encoding
is produced with `cmin = cmax = 7` and all colors equal to 7. -/
theorem create_plot_marker_color_witness :
    (exPlotConst.create_plot).1.marker.cmin = some 7
    ∧ (exPlotConst.create_plot).1.marker.cmax = some 7
    ∧ ∀ v ∈ (exPlotConst.create_plot).1.marker.color, v = 7 :=
  (create_plot_marker_color exPlotConst).2.2.2.2.2 7 (by with_unfolding_all decide)
    (by with_unfolding_all decide)

/-! ### Claim theorems: window filter -/

/-- C4: the window filter keeps exactly the records whose timestamp lies
in the inclusive interval `[lo, hi]`, and when `lo > hi` it returns the
empty record set (it is a total function, so no exception is raised). -/
theorem windowFilter_spec (l : List EventRecord) (lo hi : Int) :
    (∀ r : EventRecord, r ∈ windowFilter l lo hi
        ↔ r ∈ l ∧ lo ≤ r.originDateTime ∧ r.originDateTime ≤ hi)
    ∧ (hi < lo → windowFilter l lo hi = []) := by
  constructor
  · intro r
    simp [windowFilter, List.mem_filter, and_assoc]
  · intro h
    apply List.filter_eq_nil_iff.mpr
    intro r _
    simp only [Bool.and_eq_true, decide_eq_true_eq, not_and]
    omega

/-- Witness for C4: on the loaded three-row example, the out-of-order
bounds `lower = 1 > upper = 0` yield the empty set. -/
theorem windowFilter_spec_witness :
    (0 : Int) < 1 ∧ windowFilter exPlot3.df100sorted 1 0 = [] :=
  ⟨by decide, (windowFilter_spec exPlot3.df100sorted 1 0).2 (by decide)⟩

/-! ### Claim theorems: instance-state effects of `create_plot` -/

/-- C7: if `plot_start_time` (resp. `plot_end_time`) is unset when the
plot is created, the instance returned by `create_plot` stores the
minimum (resp. maximum) timestamp of the capped, sorted subset in that
attribute; once a bound is set (by the caller or by a previous call) it
is carried over unchanged, so the resolved default persists across
subsequent calls. -/
theorem create_plot_stores_default_bounds (s : MSPlot) :
    (s.plot_start_time = none →
      ((s.create_plot).2).plot_start_time
        = seriesMin (s.df100sorted.map (·.originDateTime)))
    ∧ (s.plot_end_time = none →
      ((s.create_plot).2).plot_end_time
        = seriesMax (s.df100sorted.map (·.originDateTime)))
    ∧ (∀ t, s.plot_start_time = some t →
        ((s.create_plot).2).plot_start_time = some t)
    ∧ (∀ t, s.plot_end_time = some t →
        ((s.create_plot).2).plot_end_time = some t) := by
  refine ⟨fun h => ?_, fun h => ?_, fun t h => ?_, fun t h => ?_⟩ <;>
    simp [MSPlot.create_plot, MSPlot.resolvedStart, MSPlot.resolvedEnd, h]

/-- Witness for C7: the example instance starts with an unset
`plot_start_time`, and after `create_plot` the instance stores the
minimum timestamp of its three records. -/
theorem create_plot_stores_default_bounds_witness :
    exPlot3.plot_start_time = none
    ∧ ((exPlot3.create_plot).2).plot_start_time
        = some (toDatetime ⟨1, 1, 2025⟩ ⟨0, 0, 1⟩) := by
  refine ⟨rfl, ?_⟩
  rw [(create_plot_stores_default_bounds exPlot3).1 rfl]
  decide

/-- C8: plot creation processes only the first 101 rows of the loaded
table: replacing the data by its 101-row prefix changes neither the
sorted working set, nor the resolved default time bounds, nor the
filtered record set, nor the resulting point cloud — rows beyond the
hardcoded development-time cap never contribute. -/
theorem create_plot_row_cap (s : MSPlot) :
    ({ s with data := s.data.take 101 } : MSPlot).df100sorted = s.df100sorted
    ∧ ({ s with data := s.data.take 101 } : MSPlot).resolvedStart = s.resolvedStart
    ∧ ({ s with data := s.data.take 101 } : MSPlot).resolvedEnd = s.resolvedEnd
    ∧ ({ s with data := s.data.take 101 } : MSPlot).filteredData = s.filteredData
    ∧ (({ s with data := s.data.take 101 } : MSPlot).create_plot).1
        = (s.create_plot).1 := by
  have hdf : ({ s with data := s.data.take 101 } : MSPlot).df100sorted
      = s.df100sorted := by
    simp [MSPlot.df100sorted, List.take_take]
  have hst : ({ s with data := s.data.take 101 } : MSPlot).resolvedStart
      = s.resolvedStart := by
    simp only [MSPlot.resolvedStart, hdf]
  have hen : ({ s with data := s.data.take 101 } : MSPlot).resolvedEnd
      = s.resolvedEnd := by
    simp only [MSPlot.resolvedEnd, hdf]
  have hfd : ({ s with data := s.data.take 101 } : MSPlot).filteredData
      = s.filteredData := by
    simp only [MSPlot.filteredData, hst, hen, hdf]
  refine ⟨hdf, hst, hen, hfd, ?_⟩
  simp only [MSPlot.create_plot, hfd]

/-! ### Claim theorems: scene composition -/

theorem addLeaf_foldl (l : List PyObj) (acc : List Trace × List String) :
    l.foldl addLeaf acc
      = (acc.1 ++ l.filterMap validOf, acc.2 ++ l.filterMap diagOf) := by
  induction l generalizing acc with
  | nil => simp
  | cons o l ih =>
    cases o with
    | scatter3d t =>
      simp [addLeaf, ih, validOf, diagOf, List.filterMap_cons]
    | invalid s =>
      simp [addLeaf, ih, validOf, diagOf, List.filterMap_cons]

theorem draw_foldl (ps : List PlotEntry) (acc : List Trace × List String) :
    ps.foldl
      (fun acc b =>
        match b with
        | .group l => l.foldl addLeaf acc
        | .obj o => addLeaf acc o)
      acc
      = (acc.1 ++ ((ps.map entryLeaves).flatten.filterMap validOf),
         acc.2 ++ ((ps.map entryLeaves).flatten.filterMap diagOf)) := by
  induction ps generalizing acc with
  | nil => simp
  | cons b ps ih =>
    rw [List.foldl_cons, ih]
    cases b with
    | obj o =>
      cases o with
      | scatter3d t =>
        simp [addLeaf, entryLeaves, validOf, diagOf]
      | invalid s =>
        simp [addLeaf, entryLeaves, validOf, diagOf]
    | group l =>
      show ((l.foldl addLeaf acc).1 ++ _, (l.foldl addLeaf acc).2 ++ _) = _
      rw [addLeaf_foldl]
      simp [entryLeaves, List.filterMap_append]

/-- C5: `DataViewer.draw` adds exactly the valid drawables to the scene
in encounter order (flattening one level of nesting), and emits one
diagnostic identifying each invalid leaf while skipping it; in
particular one valid drawable plus one invalid entry yields exactly one
trace and exactly one diagnostic. -/
theorem draw_spec (ps : List PlotEntry) :
    (DataViewer.draw ps).1 = (ps.map entryLeaves).flatten.filterMap validOf
    ∧ (DataViewer.draw ps).2 = (ps.map entryLeaves).flatten.filterMap diagOf
    ∧ ∀ t s, DataViewer.draw [.obj (.scatter3d t), .obj (.invalid s)]
        = ([t], ["Invalid object: " ++ s]) := by
  refine ⟨?_, ?_, fun t s => rfl⟩ <;>
    simp [DataViewer.draw, draw_foldl]

/-! ### Claim theorems: well trajectories -/

/-- C6: on a loaded group of four trajectories, `WellPlot.create_plot`
returns exactly four polylines whose positions come from the `EW`, `NS`
and `TVD` columns in station order, whose stroke colors cycle the fixed
palette `[red, blue, green, orange]` by index, and whose labels are
`1H`, `2H`, `3H`, `4H`. -/
theorem wellplot_create_plot_spec (w1 w2 w3 w4 : WellTable) :
    WellPlot.create_plot ⟨.table w1, .table w2, .table w3, .table w4⟩
      = some
        [{ x := w1.map (·.ew), y := w1.map (·.ns), z := w1.map (·.tvd),
           mode := "lines", line := { color := "red", width := 3 }, name := "1H" },
         { x := w2.map (·.ew), y := w2.map (·.ns), z := w2.map (·.tvd),
           mode := "lines", line := { color := "blue", width := 3 }, name := "2H" },
         { x := w3.map (·.ew), y := w3.map (·.ns), z := w3.map (·.tvd),
           mode := "lines", line := { color := "green", width := 3 }, name := "3H" },
         { x := w4.map (·.ew), y := w4.map (·.ns), z := w4.map (·.tvd),
           mode := "lines", line := { color := "orange", width := 3 }, name := "4H" }] := by
  with_unfolding_all rfl

/-- Counterexample for C9: the claim says variant A (the first well
file) skips 1 leading header-describing row; the code passes
`skiprows=27`, and on a concrete 40-row file the parsed data rows
differ from what a 1-row skip would parse. `specWellA_read_config`
transcribes the claim's wording for the comparison. -/
theorem well1_skiprows_counterexample :
    well1_read_config.skiprows = 27
    ∧ specWellA_read_config.skiprows = 1
    ∧ dataRows well1_read_config (List.range 40)
        ≠ dataRows specWellA_read_config (List.range 40)
    ∧ well1_read_config ≠ specWellA_read_config := by
  refine ⟨rfl, rfl, by decide, by decide⟩

/-- C9 (amended): variant A (the first well file) is loaded by skipping
27 leading rows, taking the next row as the header (so data starts at
row 28) and dropping 5 trailing footer rows, with columns `Azimuth`,
`TVD`, `NS`, `EW` selected by name; the other three well files are
loaded by skipping a fixed 22 leading rows, with those four column
names supplied explicitly because the header is absent. -/
theorem well_load_variants {α : Type} (file : List α) :
    dataRows well1_read_config file
      = (file.drop 28).take ((file.drop 28).length - 5)
    ∧ well1_read_config.names = none
    ∧ well1_read_config.usecols = ["Azimuth", "TVD", "NS", "EW"]
    ∧ dataRows well2_read_config file = file.drop 22
    ∧ well2_read_config.names = some ["Azimuth", "TVD", "NS", "EW"]
    ∧ well3_read_config = well2_read_config
    ∧ well4_read_config = well2_read_config := by
  refine ⟨?_, rfl, rfl, ?_, rfl, rfl, rfl⟩
  · simp [dataRows, well1_read_config]
  · simp [dataRows, well2_read_config]

/-- C10: one successful `WellPlot.load_csv` call replaces the four path
attributes with the parsed tables; the resulting instance retains no
path, so a second `load_csv` call on it cannot re-read the files from
the originally supplied paths (pandas fails on the stored tables). -/
theorem load_csv_replaces_paths (fs : String → ReadCsvConfig → WellTable)
    (p1 p2 p3 p4 : String) :
    WellPlot.load_csv fs ⟨.path p1, .path p2, .path p3, .path p4⟩
      = some ⟨.table (fs p1 well1_read_config), .table (fs p2 well2_read_config),
              .table (fs p3 well3_read_config), .table (fs p4 well4_read_config)⟩
    ∧ WellPlot.load_csv fs
        ⟨.table (fs p1 well1_read_config), .table (fs p2 well2_read_config),
         .table (fs p3 well3_read_config), .table (fs p4 well4_read_config)⟩
      = none :=
  ⟨rfl, rfl⟩

end MSV
